import Mathlib

/-!
Shallow embedding of the `llm-consensus` backend
(`src/backend/consensus.py` and `src/backend/main.py`).

The network is modelled as an environment `http : Nat → HttpOutcome` giving the
outcome of each HTTP attempt (for the transport layer), respectively an oracle
`Oracle κ` giving the outcome of each logical `call_llm` invocation (for the
orchestrator layer).  Python exceptions are modelled as `Except String`;
machine-level concerns (actual sockets, timeouts as wall-clock time) only
appear as the recorded sleep durations and request traces.
-/

/-! ## String helpers (model Python's `in`, `.lower()`, `.split()`) -/

/-- Tests whether the first list is an initial segment of the second. -/
def leadsWith : List Char → List Char → Bool
  | [], _ => true
  | _ :: _, [] => false
  | a :: as, b :: bs => a == b && leadsWith as bs

/-- Tests whether `pat` occurs contiguously inside the second list. -/
def infixIn : List Char → List Char → Bool
  | pat, [] => pat.isEmpty
  | pat, c :: rest => leadsWith pat (c :: rest) || infixIn pat rest

/-- Python's substring test `pat in s`. -/
def containsStr (s pat : String) : Bool := infixIn pat.toList s.toList

/-- ASCII lower-casing of one character (models `str.lower()` on the
identifiers appearing in configs, which are ASCII). -/
def lowerCh (c : Char) : Char :=
  if 'A' ≤ c ∧ c ≤ 'Z' then Char.ofNat (c.toNat + 32) else c

/-- Python's `s.lower()` restricted to ASCII. -/
def strLower (s : String) : String := String.mk (s.toList.map lowerCh)

/-- The characters following the first occurrence of `pat`, if `pat` occurs. -/
def afterSub (pat : List Char) : List Char → Option (List Char)
  | [] => if pat.isEmpty then some [] else none
  | c :: rest =>
    if leadsWith pat (c :: rest) then some (List.drop pat.length (c :: rest))
    else afterSub pat rest

/-- Python's truthiness test `if api_key:` for an optional string:
`None` and the empty string are falsy. -/
def truthy : Option String → Bool
  | none => false
  | some s => !(s == "")

/-! ## JSON values (bodies of requests and responses)

`numE m e` stands for the decimal number `m * 10 ^ (-e)` (used only for the
literal `0.7` in request bodies). -/

inductive Json where
  | null
  | bool (b : Bool)
  | num (n : Int)
  | numE (m : Int) (e : Nat)
  | str (s : String)
  | arr (xs : List Json)
  | obj (fields : List (String × Json))

/-- Key lookup in the field list of a JSON object. -/
def lookupField : List (String × Json) → String → Option Json
  | [], _ => none
  | (k2, v) :: rest, k => if k2 == k then some v else lookupField rest k

/-- Python's `d[key]` (None on KeyError/TypeError, which the callers turn
into a raised exception). -/
def Json.getKey : Json → String → Option Json
  | .obj fs, k => lookupField fs k
  | _, _ => none

/-- Python's `xs[i]` on a JSON array. -/
def Json.getIdx : Json → Nat → Option Json
  | .arr xs, i => xs[i]?
  | _, _ => none

/-- Python's `key in d` (bodies are modelled as JSON objects). -/
def Json.hasKey (j : Json) (k : String) : Bool :=
  match j with
  | .obj fs => (lookupField fs k).isSome
  | _ => false

/-- Extracts a string leaf. -/
def Json.asStr : Json → Option String
  | .str s => some s
  | _ => none

mutual
/-- Best-effort model of Python's `str()` applied to a parsed JSON payload
(dict/list repr with single-quoted strings). -/
def pyStr : Json → String
  | .null => "None"
  | .bool true => "True"
  | .bool false => "False"
  | .num n => toString n
  | .numE m e => toString m ++ "e-" ++ toString e
  | .str s => "'" ++ s ++ "'"
  | .arr xs => "[" ++ pyStrList xs ++ "]"
  | .obj fs => "\x7b" ++ pyStrFields fs ++ "\x7d"

/-- Comma-joined rendering of a JSON array's elements. -/
def pyStrList : List Json → String
  | [] => ""
  | [x] => pyStr x
  | x :: y :: rest => pyStr x ++ ", " ++ pyStrList (y :: rest)

/-- Comma-joined rendering of a JSON object's fields. -/
def pyStrFields : List (String × Json) → String
  | [] => ""
  | [(k, v)] => "'" ++ k ++ "': " ++ pyStr v
  | (k, v) :: f :: rest => "'" ++ k ++ "': " ++ pyStr v ++ ", " ++ pyStrFields (f :: rest)
end

/-! ## Provider adapter: request building (consensus.py lines 22-74, 178-201) -/

/-- Request body for the Bedrock model families, keyed on the lower-cased
model identifier (consensus.py lines 22-69). -/
def bedrockBody (modelLower prompt : String) : Json :=
  if containsStr modelLower "anthropic.claude" || containsStr modelLower "claude" then
    Json.obj [("anthropic_version", Json.str "bedrock-2023-05-31"),
              ("max_tokens", Json.num 4096),
              ("messages", Json.arr [Json.obj [("role", Json.str "user"),
                                               ("content", Json.str prompt)]])]
  else if containsStr modelLower "amazon.titan" || containsStr modelLower "titan" then
    Json.obj [("inputText", Json.str prompt),
              ("textGenerationConfig", Json.obj [("maxTokenCount", Json.num 4096),
                                                 ("temperature", Json.numE 7 1)])]
  else if containsStr modelLower "amazon.nova" || containsStr modelLower "nova" then
    Json.obj [("messages", Json.arr [Json.obj [("role", Json.str "user"),
                 ("content", Json.arr [Json.obj [("text", Json.str prompt)]])]]),
              ("inferenceConfig", Json.obj [("maxTokens", Json.num 4096),
                                            ("temperature", Json.numE 7 1)])]
  else if containsStr modelLower "meta.llama" || containsStr modelLower "llama" then
    Json.obj [("prompt", Json.str prompt),
              ("max_gen_len", Json.num 2048),
              ("temperature", Json.numE 7 1)]
  else if containsStr modelLower "mistral" || containsStr modelLower "mixtral" then
    Json.obj [("prompt", Json.str prompt),
              ("max_tokens", Json.num 4096),
              ("temperature", Json.numE 7 1)]
  else
    Json.obj [("messages", Json.arr [Json.obj [("role", Json.str "user"),
                                               ("content", Json.str prompt)]]),
              ("max_tokens", Json.num 4096)]

/-- The OpenAI-style chat payload used for openrouter and for the generic
fallback (consensus.py lines 183-187 and 196-201, which are identical). -/
def chatPayload (model prompt : String) : Json :=
  Json.obj [("model", Json.str model),
            ("messages", Json.arr [Json.obj [("role", Json.str "user"),
                                             ("content", Json.str prompt)]])]

/-! ## Provider adapter: response parsing (consensus.py lines 106-125, 224-239) -/

/-- Response-text extraction for Bedrock bodies, dispatching on the
lower-cased model identifier (consensus.py lines 106-125).  `none` models the
KeyError/IndexError/TypeError raised when the expected path is absent, which
the surrounding `except` clause turns into a retried failure. -/
def parseBedrockResponse (modelLower : String) (body : Json) : Option String :=
  if containsStr modelLower "anthropic.claude" || containsStr modelLower "claude" then
    ((body.getKey "content").bind (Json.getIdx · 0)).bind (Json.getKey · "text")
      |>.bind Json.asStr
  else if containsStr modelLower "amazon.titan" || containsStr modelLower "titan" then
    ((body.getKey "results").bind (Json.getIdx · 0)).bind (Json.getKey · "outputText")
      |>.bind Json.asStr
  else if containsStr modelLower "amazon.nova" || containsStr modelLower "nova" then
    ((((body.getKey "output").bind (Json.getKey · "message")).bind
      (Json.getKey · "content")).bind (Json.getIdx · 0)).bind (Json.getKey · "text")
      |>.bind Json.asStr
  else if containsStr modelLower "meta.llama" || containsStr modelLower "llama" then
    (body.getKey "generation").bind Json.asStr
  else if containsStr modelLower "mistral" || containsStr modelLower "mixtral" then
    ((body.getKey "outputs").bind (Json.getIdx · 0)).bind (Json.getKey · "text")
      |>.bind Json.asStr
  else
    if body.hasKey "content" then
      ((body.getKey "content").bind (Json.getIdx · 0)).bind (Json.getKey · "text")
        |>.bind Json.asStr
    else if body.hasKey "output" then
      ((((body.getKey "output").bind (Json.getKey · "message")).bind
        (Json.getKey · "content")).bind (Json.getIdx · 0)).bind (Json.getKey · "text")
        |>.bind Json.asStr
    else
      some (pyStr body)

/-- Response-text extraction for the non-Bedrock path
(consensus.py lines 224-239): `choices[0].message.content`, else the
`response` field, else the stringified body.  A broken path after a present
`choices`/`response` key raises (modelled as `.error`), matching the code,
where such an exception is re-raised without retry. -/
def parseChatResponse (data : Json) : Except String String :=
  if data.hasKey "choices" then
    match (((data.getKey "choices").bind (Json.getIdx · 0)).bind
            (Json.getKey · "message")).bind (Json.getKey · "content") with
    | some (Json.str c) => .ok c
    | _ => .error "KeyError"
  else if data.hasKey "response" then
    match data.getKey "response" with
    | some (Json.str c) => .ok c
    | _ => .error "TypeError"
  else
    .ok (pyStr data)

/-! ## Transport layer -/

/-- One HTTP request as issued on the wire. -/
structure HttpRequest where
  url : String
  body : Json
  headers : List (String × String)

/-- Environment's answer to one HTTP attempt: a status code with a parsed
JSON body, or a network-level exception. -/
inductive HttpOutcome where
  | status (code : Nat) (body : Json)
  | netError (msg : String)

/-- Retry loop of `call_bedrock` (consensus.py lines 76-148).  `k` is the
0-based attempt counter, `fuel` the number of attempts left
(`fuel = maxRetries - k` at every call).  Returns the result together with
the sleep-duration trace and the trace of issued requests. -/
def bedrockLoop (modelLower : String) (req : HttpRequest) (http : Nat → HttpOutcome)
    (maxRetries : Nat) : Nat → Nat → Except String String × List Nat × List HttpRequest
  | _, 0 => (.error ("Bedrock failed after " ++ toString maxRetries ++ " attempts"), [], [])
  | k, fuel + 1 =>
    match http k with
    | .status code body =>
      if code = 429 ∧ k < maxRetries - 1 then
        let r2 := bedrockLoop modelLower req http maxRetries (k + 1) fuel
        (r2.1, (2 ^ k * 2) :: r2.2.1, req :: r2.2.2)
      else if code = 429 then
        (.error "HTTPStatusError: 429", [], [req])
      else if 400 ≤ code then
        if k < maxRetries - 1 then
          let r2 := bedrockLoop modelLower req http maxRetries (k + 1) fuel
          (r2.1, 2 :: r2.2.1, req :: r2.2.2)
        else
          (.error ("HTTPStatusError: " ++ toString code), [], [req])
      else
        match parseBedrockResponse modelLower body with
        | some content => (.ok content, [], [req])
        | none =>
          if k < maxRetries - 1 then
            let r2 := bedrockLoop modelLower req http maxRetries (k + 1) fuel
            (r2.1, 2 :: r2.2.1, req :: r2.2.2)
          else
            (.error "KeyError", [], [req])
    | .netError msg =>
      if k < maxRetries - 1 then
        let r2 := bedrockLoop modelLower req http maxRetries (k + 1) fuel
        (r2.1, 2 :: r2.2.1, req :: r2.2.2)
      else
        (.error msg, [], [req])

/-- `call_bedrock` (consensus.py lines 7-148).  Both branches of the
`model.startswith(('us.', 'eu.', 'ap.'))` test in the source build the same
invoke URL, so the URL is built unconditionally here. -/
def call_bedrock (model prompt api_key region : String) (maxRetries : Nat)
    (http : Nat → HttpOutcome) : Except String String × List Nat × List HttpRequest :=
  let endpoint := "https://bedrock-runtime." ++ region ++ ".amazonaws.com/model/"
      ++ model ++ "/invoke"
  let modelLower := strLower model
  let req : HttpRequest :=
    ⟨endpoint, bedrockBody modelLower prompt,
     [("Content-Type", "application/json"), ("Authorization", "Bearer " ++ api_key)]⟩
  bedrockLoop modelLower req http maxRetries 0 maxRetries

/-- Retry loop of the non-Bedrock part of `call_llm`
(consensus.py lines 203-253).  Only a 429 with attempts remaining is retried;
any other HTTP error, network exception or parse failure is raised
immediately. -/
def llmLoop (req : HttpRequest) (http : Nat → HttpOutcome)
    (maxRetries : Nat) : Nat → Nat → Except String String × List Nat × List HttpRequest
  | _, 0 => (.error ("Failed after " ++ toString maxRetries ++ " attempts"), [], [])
  | k, fuel + 1 =>
    match http k with
    | .status code body =>
      if code = 429 ∧ k < maxRetries - 1 then
        let r2 := llmLoop req http maxRetries (k + 1) fuel
        (r2.1, (2 ^ k * 2) :: r2.2.1, req :: r2.2.2)
      else if code = 429 then
        (.error "HTTPStatusError: 429", [], [req])
      else if 400 ≤ code then
        (.error ("HTTPStatusError: " ++ toString code), [], [req])
      else
        match parseChatResponse body with
        | .ok content => (.ok content, [], [req])
        | .error e => (.error e, [], [req])
    | .netError msg => (.error msg, [], [req])

/-! ## Configuration handling (main.py lines 123-127, consensus.py lines 150-174) -/

/-- The caller-supplied backend descriptor (main.py `LLMConfig`). -/
structure LLMConfig where
  endpoint : String
  model : String
  api_key : Option String
  type : Option String
deriving DecidableEq

/-- A config value as passed into `call_llm`: either a plain dict with the
keys of `LLMConfig`, or an object (Pydantic model) exposing them as
attributes (consensus.py lines 150-162). -/
inductive PyConfig where
  | dict (c : LLMConfig)
  | obj (c : LLMConfig)
deriving DecidableEq

/-- Field extraction of `call_llm` (consensus.py lines 153-162): the
attribute path uses `getattr(config, 'api_key', None)` and
`getattr(config, 'type', 'openai')`, the dict path uses `config.get("api_key")`
and `config.get("type", "openai")`. -/
def extractConfig : PyConfig → String × String × Option String × String
  | .obj c => (c.endpoint, c.model, c.api_key, c.type.getD "openai")
  | .dict c => (c.endpoint, c.model, c.api_key, c.type.getD "openai")

/-- Region extraction (consensus.py lines 166-169): the text after the first
`region=` in the endpoint, truncated at the first `&`; defaults to
`us-east-1`. -/
def extractRegion (endpoint : String) : String :=
  if containsStr endpoint "region=" then
    match afterSub ("region=".toList) endpoint.toList with
    | some rest => String.mk (rest.takeWhile (fun c => c != '&'))
    | none => "us-east-1"
  else "us-east-1"

/-- `call_llm` (consensus.py lines 150-253): extracts the config fields,
dispatches to Bedrock when `type == "bedrock"` or the endpoint mentions
bedrock (failing fast without a key), otherwise builds the per-family
payload and runs the retry loop. -/
def call_llm (config : PyConfig) (prompt : String) (maxRetries : Nat)
    (http : Nat → HttpOutcome) : Except String String × List Nat × List HttpRequest :=
  let ex := extractConfig config
  let endpoint := ex.1
  let model := ex.2.1
  let api_key := ex.2.2.1
  let endpoint_type := ex.2.2.2
  if endpoint_type == "bedrock" || containsStr (strLower endpoint) "bedrock" then
    if truthy api_key then
      call_bedrock model prompt (api_key.getD "") (extractRegion endpoint) maxRetries http
    else
      (.error "Bedrock API key is required. Get one from AWS Console → Bedrock → API Keys",
       [], [])
  else
    let headers := ("Content-Type", "application/json") ::
      (if truthy api_key then [("Authorization", "Bearer " ++ api_key.getD "")] else [])
    let payload :=
      if containsStr endpoint "openrouter.ai" then chatPayload model prompt
      else if containsStr endpoint "ollama" || containsStr endpoint "11434" then
        Json.obj [("model", Json.str model), ("prompt", Json.str prompt),
                  ("stream", Json.bool false)]
      else chatPayload model prompt
    llmLoop ⟨endpoint, payload, headers⟩ http maxRetries 0 maxRetries

/-! ## Orchestrator data model (consensus.py lines 255-366)

The orchestrator is generic in the config type `κ` (the Python code is
duck-typed there) and abstracts one logical `call_llm` invocation as an
oracle `κ → prompt → attempt → Except error text`; participants and rankers
are invoked at attempt 0, the chairman's outer retry loop at attempts
0..4. -/

/-- Per-participant phase-1 slot (the dict built in `call_participant`). -/
structure PResult where
  participant : Nat
  response : String
  error : Option String
deriving DecidableEq

/-- Per-participant phase-2 slot (the dict built in `call_ranking`). -/
structure RResult where
  participant : Nat
  ranking : String
  error : Option String
deriving DecidableEq

/-- The dict returned by `ConsensusEngine.run` (consensus.py lines 358-363). -/
structure ConsensusResult where
  prompt : String
  responses : List PResult
  rankings : List RResult
  final_output : String
deriving DecidableEq

/-- Outcome environment for one logical `call_llm` invocation:
config, prompt, attempt number. -/
def Oracle (κ : Type) : Type := κ → String → Nat → Except String String

/-- The phase-1 slot produced for participant `i` (consensus.py
lines 255-271): a failure is folded into the slot with a bracketed error
marker as the response text. -/
def pSlot {κ : Type} (oracle : Oracle κ) (i : Nat) (p : κ) (prompt : String) : PResult :=
  match oracle p prompt 0 with
  | .ok t => ⟨i, t, none⟩
  | .error e => ⟨i, "[Error: " ++ e ++ "]", some e⟩

/-- `call_participant` (consensus.py lines 255-271), also recording the one
logical backend call it performs. -/
def callParticipant {κ : Type} (oracle : Oracle κ) (i : Nat) (p : κ) (prompt : String) :
    PResult × List (κ × String) :=
  (pSlot oracle i p prompt, [(p, prompt)])

/-- The ranking prompt f-string (consensus.py lines 275-287). -/
def rankingPromptStr (prompt ra rb rc : String) : String :=
  "Original prompt: " ++ prompt ++
  "\n\nHere are 3 responses from different AI models:\n\nResponse A: " ++ ra ++
  "\n\nResponse B: " ++ rb ++
  "\n\nResponse C: " ++ rc ++
  "\n\nRank these responses from best to worst (1=best, 3=worst) based on accuracy, helpfulness, and clarity.\nRespond ONLY with a JSON object in this exact format:\n\x7b\"rankings\": \x7b\"A\": 1, \"B\": 2, \"C\": 3\x7d, \"reasoning\": \"brief explanation\"\x7d"

/-- Builds the ranking prompt from the phase-1 slots; `none` models the
IndexError raised (before the `try` block) when fewer than three responses
exist. -/
def rankingPrompt (prompt : String) (responses : List PResult) : Option String :=
  match responses[0]?, responses[1]?, responses[2]? with
  | some r0, some r1, some r2 =>
    some (rankingPromptStr prompt r0.response r1.response r2.response)
  | _, _, _ => none

/-- The phase-2 slot produced for participant `i` once the ranking prompt
`rp` exists (consensus.py lines 289-302). -/
def rSlot {κ : Type} (oracle : Oracle κ) (i : Nat) (p : κ) (rp : String) : RResult :=
  match oracle p rp 0 with
  | .ok t => ⟨i, t, none⟩
  | .error e => ⟨i, "[Error: " ++ e ++ "]", some e⟩

/-- `call_ranking` (consensus.py lines 273-302): the prompt construction can
itself raise (escaping the `try`), while an oracle failure is folded into the
slot. -/
def callRanking {κ : Type} (oracle : Oracle κ) (i : Nat) (p : κ) (prompt : String)
    (responses : List PResult) : Except String (RResult × List (κ × String)) :=
  match rankingPrompt prompt responses with
  | none => .error "IndexError: list index out of range"
  | some rp => .ok (rSlot oracle i p rp, [(p, rp)])

/-- The chairman prompt f-string (consensus.py lines 326-341). -/
def chairmanPromptStr (prompt ra rb rc k1 k2 k3 : String) : String :=
  "You are the chairman reviewing a consensus process.\n\nOriginal prompt: " ++ prompt ++
  "\n\nThree AI models provided these responses:\nResponse A: " ++ ra ++
  "\nResponse B: " ++ rb ++
  "\nResponse C: " ++ rc ++
  "\n\nEach model ranked all responses:\nParticipant 1 rankings: " ++ k1 ++
  "\nParticipant 2 rankings: " ++ k2 ++
  "\nParticipant 3 rankings: " ++ k3 ++
  "\n\nBased on the responses and rankings, create a consolidated final answer that represents the best consensus.\nInclude a brief explanation of how you synthesized the responses."

/-- Builds the chairman prompt; `none` models the IndexError on fewer than
three responses or rankings. -/
def chairmanPrompt (prompt : String) (responses : List PResult) (rankings : List RResult) :
    Option String :=
  match responses[0]?, responses[1]?, responses[2]?,
        rankings[0]?, rankings[1]?, rankings[2]? with
  | some r0, some r1, some r2, some k0, some k1, some k2 =>
    some (chairmanPromptStr prompt r0.response r1.response r2.response
            k0.ranking k1.ranking k2.ranking)
  | _, _, _, _, _, _ => none

/-- The chairman's outer retry loop (consensus.py lines 343-356): 5 attempts,
backoff `2 ^ attempt * 3` seconds between attempts, and after exhaustion the
final text degrades to a bracketed error marker wrapping the last error.
`k` is the attempt counter, `fuel` the attempts left (`k + fuel = 5`; the
`fuel = 0` base case is unreachable from `run`).  Returns the final text,
the trace of chairman calls and the sleep trace. -/
def chairmanLoop {κ : Type} (oracle : Oracle κ) (ch : κ) (cp : String) :
    Nat → Nat → String × List (κ × String) × List Nat
  | _, 0 => ("", [], [])
  | k, fuel + 1 =>
    match oracle ch cp k with
    | .ok t => (t, [(ch, cp)], [])
    | .error e =>
      if fuel = 0 then
        ("[Error generating consensus: " ++ e ++ "]", [(ch, cp)], [])
      else
        let r2 := chairmanLoop oracle ch cp (k + 1) fuel
        (r2.1, (ch, cp) :: r2.2.1, (2 ^ k * 3) :: r2.2.2)

/-- Sequences a list of possibly-raising branch results, propagating the
first (in index order) exception — models `asyncio.gather`'s behavior of
re-raising a task's exception. -/
def seqExcept {α : Type} : List (Except String α) → Except String (List α)
  | [] => .ok []
  | .error e :: _ => .error e
  | .ok a :: rest => (seqExcept rest).map (a :: ·)

/-- `ConsensusEngine.run` (consensus.py lines 304-366): phase 1 fan-out,
phase 2 fan-out over the same participants, chairman synthesis with outer
retry, then assembly.  Returns the run outcome together with the trace of
logical backend calls and the trace of orchestrator-level sleeps.
`asyncio.gather` returns results in argument order, which is how the two
fan-out phases are assembled here (see `runSched` for completion-order
independence). -/
def run {κ : Type} (oracle : Oracle κ) (prompt : String) (participants : List κ)
    (chairman : κ) : Except String ConsensusResult × List (κ × String) × List Nat :=
  let p1 := participants.enum.map (fun ip => callParticipant oracle ip.1 ip.2 prompt)
  let responses := p1.map Prod.fst
  let calls1 := (p1.map Prod.snd).flatten
  let p2 := participants.enum.map (fun ip => callRanking oracle ip.1 ip.2 prompt responses)
  match seqExcept p2 with
  | .error e => (.error e, calls1, [])
  | .ok rlist =>
    let rankings := rlist.map Prod.fst
    let calls2 := (rlist.map Prod.snd).flatten
    match chairmanPrompt prompt responses rankings with
    | none => (.error "IndexError: list index out of range", calls1 ++ calls2, [])
    | some cp =>
      let c3 := chairmanLoop oracle chairman cp 0 5
      (.ok ⟨prompt, responses, rankings, c3.1⟩, calls1 ++ calls2 ++ c3.2.1, c3.2.2)

/-! ## Completion-order model of `asyncio.gather`

Each branch of a fan-out phase is an independent pure task; the scheduler
completes them in some order, each completion writing its result into its
own slot of a pre-sized array; the join returns the slots in index order. -/

/-- Runs the tasks in completion order `order`, writing each completed task's
result into its slot. -/
def fillSlots {α : Type} (tasks : List α) (order : List Nat) : List (Option α) :=
  order.foldl
    (fun slots i =>
      match tasks[i]? with
      | some t => slots.set i (some t)
      | none => slots)
    (List.replicate tasks.length none)

/-- The joined result sequence of a fan-out phase under completion order
`order`. -/
def gatherSched {α : Type} (tasks : List α) (dflt : α) (order : List Nat) : List α :=
  (fillSlots tasks order).map (fun s => s.getD dflt)

/-- `ConsensusEngine.run` with the two fan-out phases executed under explicit
completion orders `ord1` (phase 1) and `ord2` (phase 2). -/
def runSched {κ : Type} (oracle : Oracle κ) (prompt : String) (participants : List κ)
    (chairman : κ) (ord1 ord2 : List Nat) :
    Except String ConsensusResult × List (κ × String) × List Nat :=
  let p1tasks := participants.enum.map (fun ip => callParticipant oracle ip.1 ip.2 prompt)
  let p1 := gatherSched p1tasks (⟨0, "", none⟩, []) ord1
  let responses := p1.map Prod.fst
  let calls1 := (p1.map Prod.snd).flatten
  let p2tasks := participants.enum.map (fun ip => callRanking oracle ip.1 ip.2 prompt responses)
  let p2 := gatherSched p2tasks (.error "") ord2
  match seqExcept p2 with
  | .error e => (.error e, calls1, [])
  | .ok rlist =>
    let rankings := rlist.map Prod.fst
    let calls2 := (rlist.map Prod.snd).flatten
    match chairmanPrompt prompt responses rankings with
    | none => (.error "IndexError: list index out of range", calls1 ++ calls2, [])
    | some cp =>
      let c3 := chairmanLoop oracle chairman cp 0 5
      (.ok ⟨prompt, responses, rankings, c3.1⟩, calls1 ++ calls2 ++ c3.2.1, c3.2.2)

/-! ## HTTP boundary (main.py lines 129-153) -/

/-- Optional file attachment of a consensus request (main.py `FileContent`). -/
structure FileContent where
  name : String
  type : String
  content : String
deriving DecidableEq

/-- Body of `POST /api/consensus` (main.py `ConsensusRequest`). -/
structure ConsensusRequest where
  prompt : String
  participants : List LLMConfig
  chairman : LLMConfig
  file : Option FileContent
deriving DecidableEq

/-- `generate_consensus` (main.py lines 146-153), as (status code, detail)
together with the trace of backend calls it causes.  A participant count
other than 3 is rejected with 400 before the engine is even constructed.
Otherwise the handler executes `engine.run(request.prompt,
request.participants, request.chairman, request.file)` (main.py line 152) —
four arguments, while `ConsensusEngine.run` accepts only three
(`self, prompt, participants, chairman`, consensus.py line 304) — so Python
raises `TypeError: run() takes 4 positional arguments but 5 were given`
before any of `run`'s body executes, and the framework converts the uncaught
exception into a 500 response; in both branches no backend call is issued. -/
def generate_consensus (req : ConsensusRequest) : (Nat × String) × List (LLMConfig × String) :=
  if req.participants.length ≠ 3 then
    ((400, "Exactly 3 participants required"), [])
  else
    ((500, "Internal Server Error"), [])

/-! ## Derived prompt abbreviations and decidability helpers -/

instance {ε α : Type} [DecidableEq ε] [DecidableEq α] : DecidableEq (Except ε α) := fun a b =>
  match a, b with
  | .ok x, .ok y =>
    if h : x = y then .isTrue (congrArg Except.ok h)
    else .isFalse (fun hh => h (Except.ok.inj hh))
  | .error x, .error y =>
    if h : x = y then .isTrue (congrArg Except.error h)
    else .isFalse (fun hh => h (Except.error.inj hh))
  | .ok _, .error _ => .isFalse Except.noConfusion
  | .error _, .ok _ => .isFalse Except.noConfusion

/-- The ranking prompt a 3-participant run sends in phase 2, as a function of
the phase-1 oracle outcomes. -/
def rankingPromptOf {κ : Type} (oracle : Oracle κ) (prompt : String) (p0 p1 p2 : κ) : String :=
  rankingPromptStr prompt (pSlot oracle 0 p0 prompt).response
    (pSlot oracle 1 p1 prompt).response (pSlot oracle 2 p2 prompt).response

/-- The chairman prompt a 3-participant run sends in phase 3, as a function
of the phase-1 and phase-2 oracle outcomes. -/
def chairmanPromptOf {κ : Type} (oracle : Oracle κ) (prompt : String) (p0 p1 p2 : κ) : String :=
  chairmanPromptStr prompt (pSlot oracle 0 p0 prompt).response
    (pSlot oracle 1 p1 prompt).response (pSlot oracle 2 p2 prompt).response
    (rSlot oracle 0 p0 (rankingPromptOf oracle prompt p0 p1 p2)).ranking
    (rSlot oracle 1 p1 (rankingPromptOf oracle prompt p0 p1 p2)).ranking
    (rSlot oracle 2 p2 (rankingPromptOf oracle prompt p0 p1 p2)).ranking

/-! ## Concrete fixtures used to evaluate the model on closed inputs -/

/-- An oracle over string-named configs that always succeeds. -/
def okOracle : Oracle String := fun p _ _ => .ok ("answer from " ++ p)

/-- An oracle that fails (transport error) exactly for the config named
`"bad"` and succeeds for every other config. -/
def oneBadOracle : Oracle String := fun p _ _ =>
  if p == "bad" then .error "boom" else .ok ("answer from " ++ p)

/-- An oracle whose chairman config `"chair"` always fails while every other
config succeeds. -/
def chairFailOracle : Oracle String := fun p _ _ =>
  if p == "chair" then .error "down" else .ok ("answer from " ++ p)

/-- A non-Bedrock OpenAI-style config used for concrete transport runs. -/
def openaiCfg : LLMConfig := ⟨"https://api.example.com/v1/chat/completions", "gpt-x", some "sk-1", some "openai"⟩

/-- An HTTP environment whose every attempt returns status 500. -/
def http500 : Nat → HttpOutcome := fun _ => .status 500 (Json.obj [])

/-- An HTTP environment whose every attempt succeeds with an empty JSON
object body. -/
def http200empty : Nat → HttpOutcome := fun _ => .status 200 (Json.obj [])

/-! ## Completion-order independence of the fan-out join -/

theorem fillSlots_aux {α : Type} (tasks : List α) (order : List Nat) :
    ∀ (s : List (Option α)), s.length = tasks.length → ∀ j : Nat,
      (order.foldl (fun slots i =>
        match tasks[i]? with
        | some t => slots.set i (some t)
        | none => slots) s)[j]? =
      if j ∈ order ∧ j < tasks.length then Option.map some tasks[j]? else s[j]? := by
  induction order with
  | nil =>
    intro s _ j
    simp
  | cons i rest ih =>
    intro s hs j
    rw [List.foldl_cons]
    have hlen : (match tasks[i]? with
        | some t => s.set i (some t)
        | none => s).length = tasks.length := by
      cases tasks[i]? <;> simp [hs]
    rw [ih _ hlen j]
    by_cases hA : j ∈ rest ∧ j < tasks.length
    · rw [if_pos hA, if_pos ⟨List.mem_cons_of_mem i hA.1, hA.2⟩]
    · rw [if_neg hA]
      by_cases hB : j = i ∧ j < tasks.length
      · obtain ⟨rfl, hjlen⟩ := hB
        rw [if_pos ⟨List.mem_cons_self _ _, hjlen⟩]
        rw [List.getElem?_eq_getElem hjlen]
        exact List.getElem?_set_eq_of_lt _ (by rw [hs]; exact hjlen)
      · have hno : ¬(j ∈ i :: rest ∧ j < tasks.length) := by
          intro hc
          rcases List.mem_cons.mp hc.1 with h1 | h1
          · exact hB ⟨h1, hc.2⟩
          · exact hA ⟨h1, hc.2⟩
        rw [if_neg hno]
        rcases eq_or_ne j i with rfl | hne
        · have hge : ¬ j < tasks.length := fun hlt => hB ⟨rfl, hlt⟩
          have hnone : tasks[j]? = none := List.getElem?_eq_none (Nat.le_of_not_lt hge)
          rw [hnone]
        · cases htj : tasks[i]? with
          | none => rfl
          | some t => exact List.getElem?_set_ne (Ne.symm hne)

theorem gatherSched_perm {α : Type} (tasks : List α) (dflt : α) (order : List Nat)
    (hperm : order.Perm (List.range tasks.length)) :
    gatherSched tasks dflt order = tasks := by
  apply List.ext_getElem?
  intro j
  have hmem : j ∈ order ↔ j < tasks.length := by
    rw [hperm.mem_iff, List.mem_range]
  simp only [gatherSched, fillSlots, List.getElem?_map]
  rw [fillSlots_aux tasks order (List.replicate tasks.length none) (by simp) j]
  by_cases hj : j < tasks.length
  · rw [if_pos ⟨hmem.mpr hj, hj⟩, List.getElem?_eq_getElem hj]
    rfl
  · rw [if_neg (fun hc => hj hc.2)]
    have h1 : (List.replicate tasks.length (none : Option α))[j]? = none :=
      List.getElem?_eq_none (by simpa using Nat.le_of_not_lt hj)
    have h2 : tasks[j]? = none := List.getElem?_eq_none (Nat.le_of_not_lt hj)
    rw [h1, h2]
    rfl

theorem runSched_eq_run {κ : Type} (oracle : Oracle κ) (prompt : String) (ps : List κ)
    (ch : κ) (ord1 ord2 : List Nat)
    (h1 : ord1.Perm (List.range ps.length)) (h2 : ord2.Perm (List.range ps.length)) :
    runSched oracle prompt ps ch ord1 ord2 = run oracle prompt ps ch := by
  simp only [runSched, run]
  rw [gatherSched_perm _ _ _ (by simpa using h2), gatherSched_perm _ _ _ (by simpa using h1)]

/-! ## Explicit form of a 3-participant run -/

theorem run_three {κ : Type} (oracle : Oracle κ) (prompt : String) (p0 p1 p2 ch : κ) :
    run oracle prompt [p0, p1, p2] ch =
      (.ok ⟨prompt,
        [pSlot oracle 0 p0 prompt, pSlot oracle 1 p1 prompt, pSlot oracle 2 p2 prompt],
        [rSlot oracle 0 p0 (rankingPromptOf oracle prompt p0 p1 p2),
         rSlot oracle 1 p1 (rankingPromptOf oracle prompt p0 p1 p2),
         rSlot oracle 2 p2 (rankingPromptOf oracle prompt p0 p1 p2)],
        (chairmanLoop oracle ch (chairmanPromptOf oracle prompt p0 p1 p2) 0 5).1⟩,
      (p0, prompt) :: (p1, prompt) :: (p2, prompt)
        :: (p0, rankingPromptOf oracle prompt p0 p1 p2)
        :: (p1, rankingPromptOf oracle prompt p0 p1 p2)
        :: (p2, rankingPromptOf oracle prompt p0 p1 p2)
        :: (chairmanLoop oracle ch (chairmanPromptOf oracle prompt p0 p1 p2) 0 5).2.1,
      (chairmanLoop oracle ch (chairmanPromptOf oracle prompt p0 p1 p2) 0 5).2.2) := by
  rfl

/-! ## Behavior of the chairman's outer retry loop -/

theorem chairmanLoop_fail_all {κ : Type} (oracle : Oracle κ) (ch : κ) (cp : String)
    (E : Nat → String) :
    ∀ (fuel k : Nat), 1 ≤ fuel →
      (∀ m, k ≤ m → m < k + fuel → oracle ch cp m = .error (E m)) →
      chairmanLoop oracle ch cp k fuel =
        ("[Error generating consensus: " ++ E (k + fuel - 1) ++ "]",
         List.replicate fuel (ch, cp),
         (List.range' k (fuel - 1)).map (fun m => 2 ^ m * 3)) := by
  intro fuel
  induction fuel with
  | zero => intro k h; omega
  | succ f ihf =>
    intro k _ hall
    simp only [chairmanLoop]
    rw [hall k (Nat.le_refl k) (by omega)]
    dsimp only
    cases f with
    | zero => simp [List.range']
    | succ f2 =>
      rw [if_neg (by omega : ¬ f2 + 1 = 0)]
      rw [ihf (k + 1) (by omega) (fun m hm1 hm2 => hall m (by omega) (by omega))]
      have he : k + 1 + (f2 + 1) - 1 = k + (f2 + 1 + 1) - 1 := by omega
      simp [he, List.replicate_succ, List.range']

theorem chairmanLoop_succeed_at {κ : Type} (oracle : Oracle κ) (ch : κ) (cp : String)
    (E : Nat → String) (t : String) (j : Nat) :
    ∀ (fuel k : Nat), k ≤ j → j < k + fuel →
      (∀ m, k ≤ m → m < j → oracle ch cp m = .error (E m)) →
      oracle ch cp j = .ok t →
      chairmanLoop oracle ch cp k fuel =
        (t, List.replicate (j - k + 1) (ch, cp),
         (List.range' k (j - k)).map (fun m => 2 ^ m * 3)) := by
  intro fuel
  induction fuel with
  | zero => intro k hk hj hfail hok; omega
  | succ f ihf =>
    intro k hk hj hfail hok
    simp only [chairmanLoop]
    rcases eq_or_ne k j with rfl | hne
    · rw [hok]
      simp [List.range']
    · have hklt : k < j := Nat.lt_of_le_of_ne hk hne
      rw [hfail k (Nat.le_refl k) hklt]
      dsimp only
      rw [if_neg (by omega : ¬ f = 0)]
      rw [ihf (k + 1) (by omega) (by omega) (fun m hm1 hm2 => hfail m (by omega) hm2) hok]
      have h1 : j - k = (j - (k + 1)) + 1 := by omega
      simp [h1, List.replicate_succ, List.range']

/-! ## Behavior of the transport retry loops -/

theorem bedrockLoop_429_seg (mL : String) (req : HttpRequest) (http : Nat → HttpOutcome)
    (maxR : Nat) (B : Nat → Json) (okBody : Json) (t : String) (j : Nat)
    (hparse : parseBedrockResponse mL okBody = some t) :
    ∀ (fuel k : Nat), k + fuel = maxR → k ≤ j → j < maxR →
      (∀ m, k ≤ m → m < j → http m = .status 429 (B m)) →
      http j = .status 200 okBody →
      bedrockLoop mL req http maxR k fuel =
        (.ok t, (List.range' k (j - k)).map (fun m => 2 ^ m * 2),
         List.replicate (j - k + 1) req) := by
  intro fuel
  induction fuel with
  | zero => intro k he hk hj h429 hok; omega
  | succ f ihf =>
    intro k he hk hj h429 hok
    simp only [bedrockLoop]
    rcases eq_or_ne k j with rfl | hne
    · rw [hok]
      dsimp only
      norm_num [hparse, List.range']
    · have hklt : k < j := Nat.lt_of_le_of_ne hk hne
      rw [h429 k (Nat.le_refl k) hklt]
      dsimp only
      rw [if_pos ⟨rfl, by omega⟩]
      rw [ihf (k + 1) (by omega) (by omega) hj (fun m hm1 hm2 => h429 m (by omega) hm2) hok]
      have h1 : j - k = (j - (k + 1)) + 1 := by omega
      simp [h1, List.replicate_succ, List.range']

theorem llmLoop_429_seg (req : HttpRequest) (http : Nat → HttpOutcome)
    (maxR : Nat) (B : Nat → Json) (okBody : Json) (t : String) (j : Nat)
    (hparse : parseChatResponse okBody = .ok t) :
    ∀ (fuel k : Nat), k + fuel = maxR → k ≤ j → j < maxR →
      (∀ m, k ≤ m → m < j → http m = .status 429 (B m)) →
      http j = .status 200 okBody →
      llmLoop req http maxR k fuel =
        (.ok t, (List.range' k (j - k)).map (fun m => 2 ^ m * 2),
         List.replicate (j - k + 1) req) := by
  intro fuel
  induction fuel with
  | zero => intro k he hk hj h429 hok; omega
  | succ f ihf =>
    intro k he hk hj h429 hok
    simp only [llmLoop]
    rcases eq_or_ne k j with rfl | hne
    · rw [hok]
      dsimp only
      norm_num [hparse, List.range']
    · have hklt : k < j := Nat.lt_of_le_of_ne hk hne
      rw [h429 k (Nat.le_refl k) hklt]
      dsimp only
      rw [if_pos ⟨rfl, by omega⟩]
      rw [ihf (k + 1) (by omega) (by omega) hj (fun m hm1 hm2 => h429 m (by omega) hm2) hok]
      have h1 : j - k = (j - (k + 1)) + 1 := by omega
      simp [h1, List.replicate_succ, List.range']

theorem bedrockLoop_httpErr_all (mL : String) (req : HttpRequest) (http : Nat → HttpOutcome)
    (maxR : Nat) (code : Nat) (B : Nat → Json) (hc : 400 ≤ code) (hn : code ≠ 429) :
    ∀ (fuel k : Nat), 1 ≤ fuel → k + fuel = maxR →
      (∀ m, k ≤ m → m < maxR → http m = .status code (B m)) →
      bedrockLoop mL req http maxR k fuel =
        (.error ("HTTPStatusError: " ++ toString code),
         List.replicate (fuel - 1) 2, List.replicate fuel req) := by
  intro fuel
  induction fuel with
  | zero => intro k h; omega
  | succ f ihf =>
    intro k _ he hall
    simp only [bedrockLoop]
    rw [hall k (Nat.le_refl k) (by omega)]
    dsimp only
    rw [if_neg (fun hcon => hn hcon.1), if_neg hn, if_pos hc]
    cases f with
    | zero =>
      rw [if_neg (by omega : ¬ k < maxR - 1)]
      simp
    | succ f2 =>
      rw [if_pos (by omega : k < maxR - 1)]
      rw [ihf (k + 1) (by omega) (by omega) (fun m hm1 hm2 => hall m (by omega) hm2)]
      simp [List.replicate_succ]

theorem bedrockLoop_netErr_all (mL : String) (req : HttpRequest) (http : Nat → HttpOutcome)
    (maxR : Nat) (M : Nat → String) :
    ∀ (fuel k : Nat), 1 ≤ fuel → k + fuel = maxR →
      (∀ m, k ≤ m → m < maxR → http m = .netError (M m)) →
      bedrockLoop mL req http maxR k fuel =
        (.error (M (maxR - 1)),
         List.replicate (fuel - 1) 2, List.replicate fuel req) := by
  intro fuel
  induction fuel with
  | zero => intro k h; omega
  | succ f ihf =>
    intro k _ he hall
    simp only [bedrockLoop]
    rw [hall k (Nat.le_refl k) (by omega)]
    dsimp only
    cases f with
    | zero =>
      rw [if_neg (by omega : ¬ k < maxR - 1)]
      have hk : k = maxR - 1 := by omega
      simp [hk]
    | succ f2 =>
      rw [if_pos (by omega : k < maxR - 1)]
      rw [ihf (k + 1) (by omega) (by omega) (fun m hm1 hm2 => hall m (by omega) hm2)]
      simp [List.replicate_succ]

theorem llmLoop_httpErr_now (req : HttpRequest) (http : Nat → HttpOutcome)
    (maxR : Nat) (code : Nat) (body : Json) (k : Nat)
    (hc : 400 ≤ code) (hn : code ≠ 429) (h0 : http k = .status code body) :
    ∀ fuel, 1 ≤ fuel →
      llmLoop req http maxR k fuel =
        (.error ("HTTPStatusError: " ++ toString code), [], [req]) := by
  intro fuel hf
  cases fuel with
  | zero => omega
  | succ f =>
    simp only [llmLoop]
    rw [h0]
    dsimp only
    rw [if_neg (fun hcon => hn hcon.1), if_neg hn, if_pos hc]

theorem llmLoop_netErr_now (req : HttpRequest) (http : Nat → HttpOutcome)
    (maxR : Nat) (msg : String) (k : Nat) (h0 : http k = .netError msg) :
    ∀ fuel, 1 ≤ fuel →
      llmLoop req http maxR k fuel = (.error msg, [], [req]) := by
  intro fuel hf
  cases fuel with
  | zero => omega
  | succ f =>
    simp only [llmLoop]
    rw [h0]

theorem llmLoop_fallback_dump (req : HttpRequest) (http : Nat → HttpOutcome)
    (maxR : Nat) (body : Json) (k : Nat)
    (hno1 : body.hasKey "choices" = false) (hno2 : body.hasKey "response" = false)
    (h0 : http k = .status 200 body) :
    ∀ fuel, 1 ≤ fuel →
      llmLoop req http maxR k fuel = (.ok (pyStr body), [], [req]) := by
  intro fuel hf
  cases fuel with
  | zero => omega
  | succ f =>
    simp only [llmLoop]
    rw [h0]
    dsimp only
    norm_num [parseChatResponse, hno1, hno2]

theorem bedrockLoop_fallback_dump (mL : String) (req : HttpRequest)
    (http : Nat → HttpOutcome) (maxR : Nat) (body : Json) (k : Nat)
    (hf1 : (containsStr mL "anthropic.claude" || containsStr mL "claude") = false)
    (hf2 : (containsStr mL "amazon.titan" || containsStr mL "titan") = false)
    (hf3 : (containsStr mL "amazon.nova" || containsStr mL "nova") = false)
    (hf4 : (containsStr mL "meta.llama" || containsStr mL "llama") = false)
    (hf5 : (containsStr mL "mistral" || containsStr mL "mixtral") = false)
    (hk1 : body.hasKey "content" = false) (hk2 : body.hasKey "output" = false)
    (h0 : http k = .status 200 body) :
    ∀ fuel, 1 ≤ fuel →
      bedrockLoop mL req http maxR k fuel = (.ok (pyStr body), [], [req]) := by
  intro fuel hf
  cases fuel with
  | zero => omega
  | succ f =>
    simp only [bedrockLoop]
    rw [h0]
    dsimp only
    norm_num [parseBedrockResponse, hf1, hf2, hf3, hf4, hf5, hk1, hk2]

/-! ## Small facts about the per-branch slots -/

theorem pSlot_participant {κ : Type} (oracle : Oracle κ) (i : Nat) (p : κ) (prompt : String) :
    (pSlot oracle i p prompt).participant = i := by
  unfold pSlot
  cases oracle p prompt 0 <;> rfl

theorem rSlot_participant {κ : Type} (oracle : Oracle κ) (i : Nat) (p : κ) (rp : String) :
    (rSlot oracle i p rp).participant = i := by
  unfold rSlot
  cases oracle p rp 0 <;> rfl

/-! ## Claims -/

/-- C9: for every known backend family and every text `t`, feeding the
invoker's parser a response body shaped as that family's documented response
path with `t` embedded (claude `content[0].text`, titan
`results[0].outputText`, nova `output.message.content[0].text`, llama
`generation`, mistral `outputs[0].text`, the generic-Bedrock `content` path,
generic chat `choices[0].message.content`, ollama `response`) recovers
exactly `t`. -/
theorem c9_adapter_roundtrip (t : String) :
    parseBedrockResponse "anthropic.claude-3-sonnet"
      (Json.obj [("content", Json.arr [Json.obj [("text", Json.str t)]])]) = some t ∧
    parseBedrockResponse "amazon.titan-text-express"
      (Json.obj [("results", Json.arr [Json.obj [("outputText", Json.str t)]])]) = some t ∧
    parseBedrockResponse "amazon.nova-pro"
      (Json.obj [("output", Json.obj [("message", Json.obj [("content",
        Json.arr [Json.obj [("text", Json.str t)]])])])]) = some t ∧
    parseBedrockResponse "meta.llama3-70b-instruct"
      (Json.obj [("generation", Json.str t)]) = some t ∧
    parseBedrockResponse "mistral.mistral-large"
      (Json.obj [("outputs", Json.arr [Json.obj [("text", Json.str t)]])]) = some t ∧
    parseBedrockResponse "unknown-model"
      (Json.obj [("content", Json.arr [Json.obj [("text", Json.str t)]])]) = some t ∧
    parseChatResponse
      (Json.obj [("choices", Json.arr [Json.obj [("message",
        Json.obj [("content", Json.str t)])]])]) = .ok t ∧
    parseChatResponse (Json.obj [("response", Json.str t)]) = .ok t := by
  refine ⟨?_, ?_, ?_, ?_, ?_, ?_, ?_, ?_⟩ <;> rfl

/-- C10: `call_llm` behaves identically whether the config is supplied as a
plain dict with keys endpoint/model/api_key/type or as an object exposing
them as attributes: the extracted fields coincide, hence the same family
detection, request body, headers, URL, and the same result, sleep trace and
request trace. -/
theorem c10_dict_obj_equiv (c : LLMConfig) (prompt : String) (maxRetries : Nat)
    (http : Nat → HttpOutcome) :
    extractConfig (PyConfig.obj c) = extractConfig (PyConfig.dict c) ∧
    call_llm (PyConfig.obj c) prompt maxRetries http
      = call_llm (PyConfig.dict c) prompt maxRetries http :=
  ⟨rfl, rfl⟩

/-- C1 (counterexample): `ConsensusEngine.run` itself performs no
participant-count validation.  Called directly with 4 participants and an
always-succeeding oracle, it does not fail with `InvalidParticipantCount`
and it does issue backend calls (it proceeds with all three phases). -/
theorem c1_counterexample :
    ¬ ((run (fun _ _ _ => Except.ok "resp") "p" [0, 1, 2, 3] 9).1
         = Except.error "InvalidParticipantCount" ∧
       (run (fun _ _ _ => Except.ok "resp") "p" [0, 1, 2, 3] 9).2.1 = []) := by
  decide

/-- C1 (amended): the participant-count check is enforced by the HTTP
endpoint `generate_consensus`, not by `run`: a request whose participant
list does not have length 3 is rejected with a 400 before any backend call
is issued. -/
theorem c1_count_check_at_boundary (req : ConsensusRequest)
    (h : req.participants.length ≠ 3) :
    generate_consensus req = ((400, "Exactly 3 participants required"), []) := by
  simp [generate_consensus, h]

/-- Witness for the amended C1 at a concrete 2-participant request. -/
theorem c1_count_check_at_boundary_witness :
    ([⟨"e1", "m1", none, none⟩, ⟨"e2", "m2", none, none⟩] : List LLMConfig).length ≠ 3 ∧
    generate_consensus ⟨"p", [⟨"e1", "m1", none, none⟩, ⟨"e2", "m2", none, none⟩],
        ⟨"e3", "m3", none, none⟩, none⟩
      = ((400, "Exactly 3 participants required"), []) :=
  ⟨by decide, c1_count_check_at_boundary _ (by decide)⟩

/-- C5: evaluation of the endpoint at any request with exactly 3
participants.  `generate_consensus` passes four arguments to the three-
parameter `ConsensusEngine.run` (main.py line 152 versus consensus.py line
304), so every valid request raises a `TypeError`, which surfaces as a 500 —
not the 200-with-ConsensusResult the claim describes. -/
theorem c5_endpoint_types_clash (req : ConsensusRequest)
    (h : req.participants.length = 3) :
    generate_consensus req = ((500, "Internal Server Error"), []) := by
  simp [generate_consensus, h]

/-- Witness for the C5 evaluation at a concrete 3-participant request. -/
theorem c5_endpoint_types_clash_witness :
    ([⟨"e1", "m1", none, none⟩, ⟨"e2", "m2", none, none⟩,
      ⟨"e3", "m3", none, none⟩] : List LLMConfig).length = 3 ∧
    generate_consensus ⟨"p", [⟨"e1", "m1", none, none⟩, ⟨"e2", "m2", none, none⟩,
        ⟨"e3", "m3", none, none⟩], ⟨"e4", "m4", none, none⟩, none⟩
      = ((500, "Internal Server Error"), []) :=
  ⟨by decide, c5_endpoint_types_clash _ (by decide)⟩

/-- C3: in a 3-participant run, a failing participant or ranker branch is
folded into its own slot (non-null error, response/ranking text
`[Error: ...]`), the other branches' slots are populated normally, phases 2
and 3 still execute, and the run as a whole returns a result — it never
aborts because one participant or one ranker failed. -/
theorem c3_branch_fault_isolation {κ : Type} (oracle : Oracle κ) (prompt : String)
    (p0 p1 p2 ch : κ) :
    ∃ r : ConsensusResult,
      (run oracle prompt [p0, p1, p2] ch).1 = .ok r ∧
      r.responses.length = 3 ∧ r.rankings.length = 3 ∧
      (∀ (j : Nat) (pj : κ) (e : String),
        [p0, p1, p2][j]? = some pj → oracle pj prompt 0 = .error e →
        r.responses[j]? = some ⟨j, "[Error: " ++ e ++ "]", some e⟩) ∧
      (∀ (j : Nat) (pj : κ) (t : String),
        [p0, p1, p2][j]? = some pj → oracle pj prompt 0 = .ok t →
        r.responses[j]? = some ⟨j, t, none⟩) ∧
      (∀ (j : Nat) (pj : κ) (e : String), [p0, p1, p2][j]? = some pj →
        oracle pj (rankingPromptOf oracle prompt p0 p1 p2) 0 = .error e →
        r.rankings[j]? = some ⟨j, "[Error: " ++ e ++ "]", some e⟩) ∧
      (∀ (j : Nat) (pj : κ) (t : String), [p0, p1, p2][j]? = some pj →
        oracle pj (rankingPromptOf oracle prompt p0 p1 p2) 0 = .ok t →
        r.rankings[j]? = some ⟨j, t, none⟩) ∧
      r.final_output
        = (chairmanLoop oracle ch (chairmanPromptOf oracle prompt p0 p1 p2) 0 5).1 := by
  rw [run_three]
  refine ⟨_, rfl, rfl, rfl, ?_, ?_, ?_, ?_, rfl⟩
  · intro j pj e hj he
    rcases j with _ | _ | _ | j
    · simp only [List.getElem?_cons_zero, Option.some.injEq] at hj
      subst hj
      simp [pSlot, he]
    · simp only [List.getElem?_cons_succ, List.getElem?_cons_zero, Option.some.injEq] at hj
      subst hj
      simp [pSlot, he]
    · simp only [List.getElem?_cons_succ, List.getElem?_cons_zero, Option.some.injEq] at hj
      subst hj
      simp [pSlot, he]
    · simp at hj
  · intro j pj t hj ht
    rcases j with _ | _ | _ | j
    · simp only [List.getElem?_cons_zero, Option.some.injEq] at hj
      subst hj
      simp [pSlot, ht]
    · simp only [List.getElem?_cons_succ, List.getElem?_cons_zero, Option.some.injEq] at hj
      subst hj
      simp [pSlot, ht]
    · simp only [List.getElem?_cons_succ, List.getElem?_cons_zero, Option.some.injEq] at hj
      subst hj
      simp [pSlot, ht]
    · simp at hj
  · intro j pj e hj he
    rcases j with _ | _ | _ | j
    · simp only [List.getElem?_cons_zero, Option.some.injEq] at hj
      subst hj
      simp [rSlot, he]
    · simp only [List.getElem?_cons_succ, List.getElem?_cons_zero, Option.some.injEq] at hj
      subst hj
      simp [rSlot, he]
    · simp only [List.getElem?_cons_succ, List.getElem?_cons_zero, Option.some.injEq] at hj
      subst hj
      simp [rSlot, he]
    · simp at hj
  · intro j pj t hj ht
    rcases j with _ | _ | _ | j
    · simp only [List.getElem?_cons_zero, Option.some.injEq] at hj
      subst hj
      simp [rSlot, ht]
    · simp only [List.getElem?_cons_succ, List.getElem?_cons_zero, Option.some.injEq] at hj
      subst hj
      simp [rSlot, ht]
    · simp only [List.getElem?_cons_succ, List.getElem?_cons_zero, Option.some.injEq] at hj
      subst hj
      simp [rSlot, ht]
    · simp at hj

/-- Witness for C3 at a concrete run whose second participant fails. -/
theorem c3_branch_fault_isolation_witness :
    ∃ r : ConsensusResult,
      (run oneBadOracle "q" ["a", "bad", "c"] "chair").1 = .ok r ∧
      r.responses[1]? = some ⟨1, "[Error: boom]", some "boom"⟩ ∧
      r.responses[0]? = some ⟨0, "answer from a", none⟩ ∧
      r.rankings[2]? = some ⟨2, "answer from c", none⟩ := by
  obtain ⟨r, h1, _, _, hfail, hok, _, hrok, _⟩ :=
    c3_branch_fault_isolation oneBadOracle "q" "a" "bad" "c" "chair"
  exact ⟨r, h1, hfail 1 "bad" "boom" rfl rfl, hok 0 "a" "answer from a" rfl rfl,
         hrok 2 "c" "answer from c" rfl rfl⟩

/-- C4: if all 5 chairman synthesis attempts fail, the 3-participant run
still returns a ConsensusResult normally, with the final text replaced by a
bracketed error marker wrapping the last error (and the chairman loop having
slept 3, 6, 12, 24 seconds between its attempts). -/
theorem c4_chairman_exhaustion {κ : Type} (oracle : Oracle κ) (prompt : String)
    (p0 p1 p2 ch : κ) (E : Nat → String)
    (h : ∀ k, k < 5 → oracle ch (chairmanPromptOf oracle prompt p0 p1 p2) k = .error (E k)) :
    ∃ r : ConsensusResult,
      (run oracle prompt [p0, p1, p2] ch).1 = .ok r ∧
      r.final_output = "[Error generating consensus: " ++ E 4 ++ "]" ∧
      (run oracle prompt [p0, p1, p2] ch).2.2 = [3, 6, 12, 24] := by
  have hc := chairmanLoop_fail_all oracle ch (chairmanPromptOf oracle prompt p0 p1 p2) E 5 0
      (by omega) (fun m hm1 hm2 => h m (by omega))
  norm_num [List.range'] at hc
  rw [run_three]
  exact ⟨_, rfl, by rw [hc], by rw [hc]⟩

/-- Witness for C4 at a concrete run whose chairman always fails. -/
theorem c4_chairman_exhaustion_witness :
    ∃ r : ConsensusResult,
      (run chairFailOracle "q" ["a", "b", "c"] "chair").1 = .ok r ∧
      r.final_output = "[Error generating consensus: " ++ "down" ++ "]" ∧
      (run chairFailOracle "q" ["a", "b", "c"] "chair").2.2 = [3, 6, 12, 24] :=
  c4_chairman_exhaustion chairFailOracle "q" "a" "b" "c" "chair" (fun _ => "down")
    (fun _ _ => rfl)

/-- C2: for every valid input with exactly 3 participants, the run returns a
ConsensusResult whose responses and rankings sequences each have exactly 3
entries, the entry at position `i` carries participant index `i` and is the
slot computed from the `i`-th input participant, and the result is the same
under every completion order of the two concurrent fan-out phases. -/
theorem c2_index_alignment {κ : Type} (oracle : Oracle κ) (prompt : String) (ps : List κ)
    (ch : κ) (ord1 ord2 : List Nat) (h3 : ps.length = 3)
    (hp1 : ord1.Perm (List.range 3)) (hp2 : ord2.Perm (List.range 3)) :
    runSched oracle prompt ps ch ord1 ord2 = run oracle prompt ps ch ∧
    ∃ r : ConsensusResult,
      (runSched oracle prompt ps ch ord1 ord2).1 = .ok r ∧
      r.responses.length = 3 ∧ r.rankings.length = 3 ∧
      (∀ i : Nat, i < 3 → Option.map PResult.participant r.responses[i]? = some i) ∧
      (∀ i : Nat, i < 3 → Option.map RResult.participant r.rankings[i]? = some i) ∧
      (∀ q0 q1 q2 : κ, ps = [q0, q1, q2] →
        r.responses = [pSlot oracle 0 q0 prompt, pSlot oracle 1 q1 prompt,
                       pSlot oracle 2 q2 prompt] ∧
        r.rankings = [rSlot oracle 0 q0 (rankingPromptOf oracle prompt q0 q1 q2),
                      rSlot oracle 1 q1 (rankingPromptOf oracle prompt q0 q1 q2),
                      rSlot oracle 2 q2 (rankingPromptOf oracle prompt q0 q1 q2)]) := by
  have heq := runSched_eq_run oracle prompt ps ch ord1 ord2
    (by rw [h3]; exact hp1) (by rw [h3]; exact hp2)
  refine ⟨heq, ?_⟩
  rw [heq]
  obtain ⟨q0, q1, q2, rfl⟩ : ∃ q0 q1 q2, ps = [q0, q1, q2] := by
    match ps, h3 with
    | [a, b, c], _ => exact ⟨a, b, c, rfl⟩
  rw [run_three]
  refine ⟨_, rfl, rfl, rfl, ?_, ?_, ?_⟩
  · intro i hi
    interval_cases i <;> simp [pSlot_participant]
  · intro i hi
    interval_cases i <;> simp [rSlot_participant]
  · intro q0' q1' q2' hps
    simp only [List.cons.injEq, and_true] at hps
    obtain ⟨rfl, rfl, rfl⟩ := hps
    exact ⟨rfl, rfl⟩

/-- Witness for C2 at a concrete run with shuffled completion orders. -/
theorem c2_index_alignment_witness :
    (["a", "b", "c"] : List String).length = 3 ∧
    ([2, 0, 1] : List Nat).Perm (List.range 3) ∧
    ([1, 2, 0] : List Nat).Perm (List.range 3) ∧
    (runSched okOracle "q" ["a", "b", "c"] "chair" [2, 0, 1] [1, 2, 0]
       = run okOracle "q" ["a", "b", "c"] "chair" ∧
     ∃ r : ConsensusResult,
       (runSched okOracle "q" ["a", "b", "c"] "chair" [2, 0, 1] [1, 2, 0]).1 = .ok r ∧
       r.responses.length = 3 ∧ r.rankings.length = 3 ∧
       (∀ i : Nat, i < 3 → Option.map PResult.participant r.responses[i]? = some i) ∧
       (∀ i : Nat, i < 3 → Option.map RResult.participant r.rankings[i]? = some i) ∧
       (∀ q0 q1 q2 : String, ["a", "b", "c"] = [q0, q1, q2] →
         r.responses = [pSlot okOracle 0 q0 "q", pSlot okOracle 1 q1 "q",
                        pSlot okOracle 2 q2 "q"] ∧
         r.rankings = [rSlot okOracle 0 q0 (rankingPromptOf okOracle "q" q0 q1 q2),
                       rSlot okOracle 1 q1 (rankingPromptOf okOracle "q" q0 q1 q2),
                       rSlot okOracle 2 q2 (rankingPromptOf okOracle "q" q0 q1 q2)])) :=
  ⟨rfl, by decide, by decide,
   c2_index_alignment okOracle "q" ["a", "b", "c"] "chair" [2, 0, 1] [1, 2, 0]
     rfl (by decide) (by decide)⟩

/-- C6 (counterexample): a claude-family Bedrock call whose 200-status
response body is the empty object (lacking the expected `content[0].text`
path) is NOT returned as a stringified dump without retry: the parse failure
raises, is retried (the sleep trace is non-empty), and the call fails. -/
theorem c6_counterexample :
    ¬ ((call_bedrock "anthropic.claude-v2" "p" "key" "us-east-1" 3 http200empty).1
         = .ok (pyStr (Json.obj [])) ∧
       (call_bedrock "anthropic.claude-v2" "p" "key" "us-east-1" 3 http200empty).2.1
         = []) := by
  have heval : (call_bedrock "anthropic.claude-v2" "p" "key" "us-east-1" 3 http200empty).1
      = .error "KeyError" := by rfl
  intro h
  rw [heval] at h
  exact Except.noConfusion h.1

/-- C6 (amended): the no-retry stringified-dump fallback applies to the
generic parsers only — the non-Bedrock chat parser when the body has neither
a `choices` nor a `response` key, and the unrecognized-family Bedrock parser
when the body has neither `content` nor `output`; there the invoker returns
`str(body)` on the first attempt without sleeping or retrying.  (For the
recognized Bedrock families a missing path raises and is retried, per the
counterexample.) -/
theorem c6_generic_dump_no_retry :
    (∀ (body : Json) (http : Nat → HttpOutcome) (req : HttpRequest) (maxR : Nat),
      1 ≤ maxR → body.hasKey "choices" = false → body.hasKey "response" = false →
      http 0 = .status 200 body →
      llmLoop req http maxR 0 maxR = (.ok (pyStr body), [], [req])) ∧
    (∀ (mL : String) (body : Json) (http : Nat → HttpOutcome) (req : HttpRequest)
       (maxR : Nat), 1 ≤ maxR →
      (containsStr mL "anthropic.claude" || containsStr mL "claude") = false →
      (containsStr mL "amazon.titan" || containsStr mL "titan") = false →
      (containsStr mL "amazon.nova" || containsStr mL "nova") = false →
      (containsStr mL "meta.llama" || containsStr mL "llama") = false →
      (containsStr mL "mistral" || containsStr mL "mixtral") = false →
      body.hasKey "content" = false → body.hasKey "output" = false →
      http 0 = .status 200 body →
      bedrockLoop mL req http maxR 0 maxR = (.ok (pyStr body), [], [req])) := by
  constructor
  · intro body http req maxR hmr hno1 hno2 h0
    exact llmLoop_fallback_dump req http maxR body 0 hno1 hno2 h0 maxR hmr
  · intro mL body http req maxR hmr hf1 hf2 hf3 hf4 hf5 hk1 hk2 h0
    exact bedrockLoop_fallback_dump mL req http maxR body 0 hf1 hf2 hf3 hf4 hf5 hk1 hk2 h0 maxR hmr

/-- Witness for the amended C6 at a concrete unrecognized-shape body. -/
theorem c6_generic_dump_no_retry_witness :
    llmLoop ⟨"u", Json.null, []⟩
      (fun _ => .status 200 (Json.obj [("foo", Json.str "bar")])) 3 0 3
      = (.ok (pyStr (Json.obj [("foo", Json.str "bar")])), [],
         [⟨"u", Json.null, []⟩]) :=
  c6_generic_dump_no_retry.1 (Json.obj [("foo", Json.str "bar")])
    (fun _ => .status 200 (Json.obj [("foo", Json.str "bar")]))
    ⟨"u", Json.null, []⟩ 3 (by omega) (by decide) (by decide) rfl

/-- C7 (counterexample): on the non-Bedrock path a 500 on the first attempt
is NOT retried after a flat 2-second sleep — the call raises immediately:
the sleep trace is empty (not `[2, 2]`) and exactly one request is issued
(not the full budget of 3). -/
theorem c7_counterexample :
    (call_llm (PyConfig.dict openaiCfg) "p" 3 http500).2.1 ≠ [2, 2] ∧
    (call_llm (PyConfig.dict openaiCfg) "p" 3 http500).2.2.length ≠ 3 ∧
    (call_llm (PyConfig.dict openaiCfg) "p" 3 http500).1 = .error "HTTPStatusError: 500" ∧
    (call_llm (PyConfig.dict openaiCfg) "p" 3 http500).2.1 = [] ∧
    (call_llm (PyConfig.dict openaiCfg) "p" 3 http500).2.2.length = 1 := by
  refine ⟨?_, ?_, rfl, rfl, rfl⟩ <;> decide

/-- C7 (amended): the flat-2-second-sleep retry of non-429 HTTP errors and
network exceptions applies to the Bedrock path only, which surfaces the
error after the budget is spent; the non-Bedrock path raises such errors
immediately, without sleeping or retrying. -/
theorem c7_flat_retry_bedrock_only :
    (∀ (mL : String) (req : HttpRequest) (http : Nat → HttpOutcome) (maxR code : Nat)
       (B : Nat → Json), 400 ≤ code → code ≠ 429 → 1 ≤ maxR →
       (∀ m, m < maxR → http m = .status code (B m)) →
       bedrockLoop mL req http maxR 0 maxR =
         (.error ("HTTPStatusError: " ++ toString code),
          List.replicate (maxR - 1) 2, List.replicate maxR req)) ∧
    (∀ (mL : String) (req : HttpRequest) (http : Nat → HttpOutcome) (maxR : Nat)
       (M : Nat → String), 1 ≤ maxR →
       (∀ m, m < maxR → http m = .netError (M m)) →
       bedrockLoop mL req http maxR 0 maxR =
         (.error (M (maxR - 1)), List.replicate (maxR - 1) 2, List.replicate maxR req)) ∧
    (∀ (req : HttpRequest) (http : Nat → HttpOutcome) (maxR code : Nat) (body : Json),
       400 ≤ code → code ≠ 429 → 1 ≤ maxR → http 0 = .status code body →
       llmLoop req http maxR 0 maxR =
         (.error ("HTTPStatusError: " ++ toString code), [], [req])) ∧
    (∀ (req : HttpRequest) (http : Nat → HttpOutcome) (maxR : Nat) (msg : String),
       1 ≤ maxR → http 0 = .netError msg →
       llmLoop req http maxR 0 maxR = (.error msg, [], [req])) := by
  refine ⟨?_, ?_, ?_, ?_⟩
  · intro mL req http maxR code B hc hn hmr hall
    exact bedrockLoop_httpErr_all mL req http maxR code B hc hn maxR 0 hmr (by omega)
      (fun m _ hm2 => hall m hm2)
  · intro mL req http maxR M hmr hall
    exact bedrockLoop_netErr_all mL req http maxR M maxR 0 hmr (by omega)
      (fun m _ hm2 => hall m hm2)
  · intro req http maxR code body hc hn hmr h0
    exact llmLoop_httpErr_now req http maxR code body 0 hc hn h0 maxR hmr
  · intro req http maxR msg hmr h0
    exact llmLoop_netErr_now req http maxR msg 0 h0 maxR hmr

/-- Witness for the amended C7: three 500s on the Bedrock path give two flat
2-second sleeps, three issued requests, and the surfaced HTTP error. -/
theorem c7_flat_retry_bedrock_only_witness :
    bedrockLoop "m" ⟨"u", Json.null, []⟩ (fun _ => .status 500 (Json.obj [])) 3 0 3
      = (.error ("HTTPStatusError: " ++ toString 500), List.replicate 2 2,
         List.replicate 3 ⟨"u", Json.null, []⟩) :=
  c7_flat_retry_bedrock_only.1 "m" ⟨"u", Json.null, []⟩
    (fun _ => .status 500 (Json.obj [])) 3 500 (fun _ => Json.obj [])
    (by omega) (by omega) (by omega) (fun _ _ => rfl)

/-- C8: a 429 at attempt `k` (0-based) with attempts remaining is followed by
a sleep of exactly `2 ^ k * 2` seconds in both transport loops (the ones
participant, ranking and chairman-inner calls run through), and the
chairman's outer retry loop sleeps exactly `2 ^ k * 3` seconds after its
`k`-th failed attempt: with failures up to attempt `j` and success at `j`,
the recorded sleep traces are exactly those geometric backoffs. -/
theorem c8_exponential_backoff :
    (∀ (req : HttpRequest) (http : Nat → HttpOutcome) (maxR : Nat) (B : Nat → Json)
       (okBody : Json) (t : String) (j : Nat), parseChatResponse okBody = .ok t →
       j < maxR → (∀ m, m < j → http m = .status 429 (B m)) →
       http j = .status 200 okBody →
       llmLoop req http maxR 0 maxR =
         (.ok t, (List.range j).map (fun k => 2 ^ k * 2), List.replicate (j + 1) req)) ∧
    (∀ (mL : String) (req : HttpRequest) (http : Nat → HttpOutcome) (maxR : Nat)
       (B : Nat → Json) (okBody : Json) (t : String) (j : Nat),
       parseBedrockResponse mL okBody = some t →
       j < maxR → (∀ m, m < j → http m = .status 429 (B m)) →
       http j = .status 200 okBody →
       bedrockLoop mL req http maxR 0 maxR =
         (.ok t, (List.range j).map (fun k => 2 ^ k * 2), List.replicate (j + 1) req)) ∧
    (∀ (κ : Type) (oracle : Oracle κ) (ch : κ) (cp : String) (E : Nat → String)
       (t : String) (j : Nat), j < 5 →
       (∀ m, m < j → oracle ch cp m = .error (E m)) →
       oracle ch cp j = .ok t →
       chairmanLoop oracle ch cp 0 5 =
         (t, List.replicate (j + 1) (ch, cp), (List.range j).map (fun m => 2 ^ m * 3))) := by
  refine ⟨?_, ?_, ?_⟩
  · intro req http maxR B okBody t j hparse hj h429 hok
    have h := llmLoop_429_seg req http maxR B okBody t j hparse maxR 0 (by omega)
      (by omega) hj (fun m _ hm2 => h429 m hm2) hok
    simpa [List.range_eq_range'] using h
  · intro mL req http maxR B okBody t j hparse hj h429 hok
    have h := bedrockLoop_429_seg mL req http maxR B okBody t j hparse maxR 0 (by omega)
      (by omega) hj (fun m _ hm2 => h429 m hm2) hok
    simpa [List.range_eq_range'] using h
  · intro κ oracle ch cp E t j hj hfail hok
    have h := chairmanLoop_succeed_at oracle ch cp E t j 5 0 (by omega) (by omega)
      (fun m _ hm2 => hfail m hm2) hok
    simpa [List.range_eq_range'] using h

/-- Witness for C8: two 429s then a success on the chat path sleep exactly
2 then 4 seconds and issue three requests. -/
theorem c8_exponential_backoff_witness :
    llmLoop ⟨"u", Json.null, []⟩
      (fun k => if k < 2 then .status 429 (Json.obj [])
                else .status 200 (Json.obj [("response", Json.str "hi")])) 3 0 3
      = (.ok "hi", (List.range 2).map (fun k => 2 ^ k * 2),
         List.replicate 3 ⟨"u", Json.null, []⟩) :=
  c8_exponential_backoff.1 ⟨"u", Json.null, []⟩
    (fun k => if k < 2 then .status 429 (Json.obj [])
              else .status 200 (Json.obj [("response", Json.str "hi")]))
    3 (fun _ => Json.obj []) (Json.obj [("response", Json.str "hi")]) "hi" 2
    (by decide) (by omega) (fun m hm => by simp [hm]) rfl
